import Mathlib

/-!
Shallow embedding of the IoTScout discovery-and-enrichment engine:
`smart_devices/discovery.py`, `smart_devices/handlers/registry.py` and
`smart_devices/netutils.py`, together with theorems settling the claims
about deduplication, enrichment, friendly-name resolution, handler
dispatch, JSON export and the meta-type browsing path.

Python strings are modelled as Lean `String`; the handful of string
primitives the source uses (`lower`, `upper`, `strip`, `replace`,
`split`, `startswith`, `endswith`, `rstrip`, substring containment) are
re-implemented structurally over `List Char` so that every definition
evaluates inside the kernel.  All inputs in this code base are ASCII, so
ASCII case folding coincides with Python's.
-/

/-! ## String primitives -/

def lowerChar (c : Char) : Char :=
  if 65 ≤ c.toNat ∧ c.toNat ≤ 90 then Char.ofNat (c.toNat + 32) else c

def upperChar (c : Char) : Char :=
  if 97 ≤ c.toNat ∧ c.toNat ≤ 122 then Char.ofNat (c.toNat - 32) else c

def lowerStr (s : String) : String := ⟨s.data.map lowerChar⟩

def upperStr (s : String) : String := ⟨s.data.map upperChar⟩

/-- Python `pat in s` (substring containment). -/
def strContains (s pat : String) : Bool :=
  s.data.tails.any (fun t => pat.data.isPrefixOf t)

def replaceAux (pat rep : List Char) : Nat → List Char → List Char
  | 0, s => s
  | _ + 1, [] => []
  | fuel + 1, c :: rest =>
    if pat.isPrefixOf (c :: rest) then rep ++ replaceAux pat rep fuel ((c :: rest).drop pat.length)
    else c :: replaceAux pat rep fuel rest

/-- Python `s.replace(pat, rep)`: all non-overlapping occurrences, left to right. -/
def replaceStr (s pat rep : String) : String :=
  if pat = "" then s else ⟨replaceAux pat.data rep.data s.data.length s.data⟩

/-- First component of Python `s.split(pat)` for a non-empty separator:
the prefix of `s` before the first occurrence of `pat` (all of `s` when absent). -/
def splitHead (pat : List Char) : List Char → List Char
  | [] => []
  | c :: rest => if pat.isPrefixOf (c :: rest) then [] else c :: splitHead pat rest

def startsWithStr (s pre : String) : Bool := pre.data.isPrefixOf s.data

def endsWithStr (s suf : String) : Bool := suf.data.isSuffixOf s.data

/-- Python `s.strip()` restricted to ASCII whitespace. -/
def trimStr (s : String) : String :=
  ⟨((s.data.dropWhile Char.isWhitespace).reverse.dropWhile Char.isWhitespace).reverse⟩

/-- Python `s.rstrip('.')`. -/
def rstripDots (s : String) : String :=
  ⟨(s.data.reverse.dropWhile (fun c => c = '.')).reverse⟩

def containsChar (s : String) (c : Char) : Bool := s.data.contains c

/-! ## `handlers/registry.py`: short service name -/

/-- `extract_service_name`: short service name from a type string,
`'_hue._tcp.local.' -> 'hue'`. -/
def extract_service_name (type_str : String) : String :=
  if type_str = "" then ""
  else
    let t := if startsWithStr type_str "_" then ⟨type_str.data.drop 1⟩ else type_str
    let name : String := ⟨splitHead "._".data t.data⟩
    lowerStr (replaceStr (replaceStr name ".local." "") ".local" "")

/-! ## `discovery.py`: static friendly-name tables -/

/-- `SERVICE_SUFFIX_TO_NAME`: exact full-type-string table. -/
def SERVICE_SUFFIX_TO_NAME : List (String × String) := [
  ("_googlecast._tcp.local.", "Google Cast (Chromecast/Google Home)"),
  ("_hue._tcp.local.", "Philips Hue Bridge"),
  ("_hap._tcp.local.", "Apple HomeKit Accessory (HAP)"),
  ("_airplay._tcp.local.", "Apple AirPlay / AppleTV"),
  ("_spotify-connect._tcp.local.", "Spotify Connect"),
  ("_http._tcp.local.", "HTTP Web Service"),
  ("_https._tcp.local.", "HTTPS Web Service"),
  ("_ssh._tcp.local.", "SSH Service"),
  ("_ipp._tcp.local.", "IPP Printer"),
  ("_printer._tcp.local.", "Network Printer"),
  ("_scanner._tcp.local.", "Network Scanner"),
  ("_amzn-wplay._tcp.local.", "Amazon Fire / Alexa"),
  ("_androidtvremote2._tcp.local.", "Android TV Remote"),
  ("_companion-link._tcp.local.", "Companion Link / Phone Link"),
  ("_carplay-ctrl._tcp.local.", "Apple CarPlay Control"),
  ("_spotify-social-listening._tcp.local.", "Spotify Social Listening"),
  ("_sonos._tcp.local.", "Sonos"),
  ("_matter._tcp.local.", "Matter Smart Home Device")]

/-- `SERVICE_TYPE_NAMES`: short-type-name table. -/
def SERVICE_TYPE_NAMES : List (String × String) := [
  ("googlecast", "Google Cast (Chromecast/Google Home)"),
  ("googlecast-tls", "Google Cast (secure)"),
  ("hue", "Philips Hue Bridge"),
  ("philipshue", "Philips Hue Bridge"),
  ("airplay", "Apple AirPlay / AppleTV"),
  ("airplay2", "Apple AirPlay 2"),
  ("raop", "AirPlay (RAOP)"),
  ("raopv2", "AirPlay (RAOP v2)"),
  ("homekit", "Apple HomeKit Accessory"),
  ("hap", "Apple HomeKit Accessory (HAP)"),
  ("amzn-alexa", "Amazon Alexa / Echo"),
  ("amzn-wplay", "Amazon Fire TV / Alexa Cast"),
  ("sonos", "Sonos Speaker"),
  ("spotify-connect", "Spotify Connect"),
  ("spotify", "Spotify Service"),
  ("roku", "Roku Device"),
  ("androidtv", "Android TV"),
  ("androidtvremote2", "Android TV Remote"),
  ("chromecast", "Chromecast"),
  ("dlna", "DLNA Media Server / Renderer"),
  ("ipp", "IPP Printer"),
  ("printer", "Network Printer"),
  ("pdl-datastream", "Printer (PDL datastream)"),
  ("scanner", "Network Scanner"),
  ("uscan", "Scanner"),
  ("privet", "Cloud Print / Privet Printer"),
  ("home-assistant", "Home Assistant"),
  ("mqtt", "MQTT Broker"),
  ("mqtt-tls", "MQTT Broker (TLS)"),
  ("tplink", "TP-Link Smart Device"),
  ("tplink-https", "TP-Link (HTTPS)"),
  ("aqara-setup", "Aqara Setup / Hub"),
  ("aqara", "Aqara device"),
  ("matter", "Matter Smart Home Device"),
  ("hap-ble", "HAP over BLE (HomeKit)"),
  ("http", "HTTP Web Service"),
  ("https", "HTTPS Web Service"),
  ("ssh", "SSH Service"),
  ("ftp", "FTP Service"),
  ("smb", "SMB / Windows Share"),
  ("afpovertcp", "Apple Filing Protocol (AFP)"),
  ("smbd", "SMB"),
  ("googlezone", "Google Zone / Cast"),
  ("apple-mobdev2", "Apple Mobile Device"),
  ("companion-link", "Companion Link / Phone Link"),
  ("carplay-ctrl", "Apple CarPlay Control"),
  ("http-alt", "Alternate HTTP"),
  ("cros-p2p", "ChromeOS P2P service (Chromebook)")]

/-- Friendly-name derivation used on the resolved-info path of
`Listener.add_service` (lines 277-280): full-type table, then short-type
table, then the metadata keys `fn` and `name` (empty values skipped, as
Python `or` does), then the synthesized `"<short-type> (service)"`
fallback.  Both static tables hold only non-empty labels, so the Python
`or` chain over `dict.get` coincides with this `Option` match. -/
def friendlyName (type : String) (props : List (String × String)) : String :=
  match SERVICE_SUFFIX_TO_NAME.lookup type with
  | some v => v
  | none =>
    match SERVICE_TYPE_NAMES.lookup (extract_service_name type) with
    | some v => v
    | none =>
      let fn := ((props.lookup "fn").getD "")
      if fn ≠ "" then fn
      else
        let nm := ((props.lookup "name").getD "")
        if nm ≠ "" then nm
        else extract_service_name type ++ " (service)"

/-- Friendly-name derivation used on the absent-info path of
`Listener.add_service` (line 215): same as `friendlyName` but with no
metadata step, since no properties were resolved. -/
def friendlyNameNoInfo (type : String) : String :=
  match SERVICE_SUFFIX_TO_NAME.lookup type with
  | some v => v
  | none =>
    match SERVICE_TYPE_NAMES.lookup (extract_service_name type) with
    | some v => v
    | none => extract_service_name type ++ " (service)"


/-! ## `discovery.py`: data model -/

/-- The result of `zeroconf.get_service_info` when it returns a
`ServiceInfo` object: server name, parsed address strings and the
already-decoded TXT properties (the byte-decoding fallbacks in the
source only shape this mapping, which we take as given). -/
structure SInfo where
  server : String
  addresses : List String
  properties : List (String × String)
deriving DecidableEq, Repr

/-- Outcome of the bounded-timeout `get_service_info` call:
it can raise, return `None`, or return a `ServiceInfo`. -/
inductive ResolveOutcome where
  | error : ResolveOutcome
  | absent : ResolveOutcome
  | found : SInfo → ResolveOutcome
deriving DecidableEq, Repr

/-- One entry of `_discovered_devices`: the device dict built by
`Listener.add_service`, with its insertion-ordered keys
`type, name, friendly, hostname, ip, mac, vendor, service_info, properties`. -/
structure Device where
  type : String
  name : String
  friendly : String
  hostname : String
  ip : String
  mac : String
  vendor : String
  serviceInfo : Option SInfo
  properties : List (String × String)
deriving DecidableEq, Repr

def defaultDevice : Device :=
  { type := "", name := "", friendly := "", hostname := "", ip := "", mac := "",
    vendor := "", serviceInfo := none, properties := [] }

/-! ## `handlers/registry.py`: handler registry and dispatch -/

/-- A registered handler: the `'name'` label plus an opaque tag standing
for the `'interact'` callable, so distinct handlers compare unequal. -/
structure HandlerEntry where
  hname : String
  tag : Nat
deriving DecidableEq, Repr

/-- `register_device_handler`: Python dict assignment on `_device_handlers` —
replaces in place when the key exists (keeping its position in iteration
order), appends otherwise. -/
def register_device_handler (reg : List (String × HandlerEntry)) (key : String)
    (handler : HandlerEntry) : List (String × HandlerEntry) :=
  if (reg.lookup key).isSome then
    reg.map (fun kv => if kv.1 = key then (key, handler) else kv)
  else reg ++ [(key, handler)]

/-- The TXT-properties pass of `find_handler_for_device`: scan items in
order; `'matter'` in `k+v` maps to the `matter` handler when registered,
a `'homeassistant'`/`'hass'` marker maps to the `home-assistant` handler
when registered. -/
def propsPass (reg : List (String × HandlerEntry)) :
    List (String × String) → Option HandlerEntry
  | [] => none
  | (k, v) :: rest =>
    let kv := lowerStr k ++ lowerStr v
    if strContains kv "matter" ∧ (reg.lookup "matter").isSome then reg.lookup "matter"
    else if (strContains kv "homeassistant" ∨ strContains kv "hass") ∧
        (reg.lookup "home-assistant").isSome then reg.lookup "home-assistant"
    else propsPass reg rest

/-- `find_handler_for_device`: exact short-name key, then TXT-properties
heuristics, then first registered key that is a substring of the
case-folded friendly or instance name; `None` when nothing matches. -/
def find_handler_for_device (reg : List (String × HandlerEntry)) (device : Device) :
    Option HandlerEntry :=
  let short := extract_service_name device.type
  match reg.lookup short with
  | some h => some h
  | none =>
    match propsPass reg device.properties with
    | some h => some h
    | none =>
      let friendly := lowerStr device.friendly
      let name := lowerStr device.name
      (reg.find? (fun kv => strContains friendly kv.1 || strContains name kv.1)).map
        (fun kv => kv.2)

/-! ## `netutils.py`: MAC and vendor resolution -/

def isHexUpper (c : Char) : Bool :=
  (48 ≤ c.toNat ∧ c.toNat ≤ 57) ∨ (65 ≤ c.toNat ∧ c.toNat ≤ 70)

/-- `':'.join(mac[i:i+2] for i in range(0, 12, 2))` on a 12-character string. -/
def colonJoinPairs : List Char → List Char
  | a :: b :: c :: rest => a :: b :: ':' :: colonJoinPairs (c :: rest)
  | l => l

/-- `format_mac`: strip, normalize separators to `:`, upper-case; a bare
12-hex-digit string gets colons inserted pairwise. -/
def format_mac (mac_raw : String) : String :=
  if mac_raw = "" then ""
  else
    let mac := upperStr (replaceStr (replaceStr (trimStr mac_raw) "-" ":") "." ":")
    if mac.data.length = 12 ∧ mac.data.all isHexUpper then ⟨colonJoinPairs mac.data⟩
    else mac

/-- Environment for one enrichment lookup: the outcomes of the external
network/OS/database collaborators for the address being resolved.
`Except Unit _` models a call that can raise; `ArpScan` distinguishes a
raising `arp -a` invocation, a table with no row for the address, and a
matched raw MAC string. -/
inductive ArpScan where
  | raised : ArpScan
  | noMatch : ArpScan
  | matched : String → ArpScan
deriving DecidableEq, Repr

structure NetEnv where
  hasScapy : Bool
  scapy : Except Unit String
  arpBefore : ArpScan
  arpAfter : ArpScan
  hasMacLookup : Bool
  maclookAvailable : Bool
  lookupFirst : Except Unit String
  lookupRetry : Except Unit String
deriving Repr

/-- `_arp_lookup_os`: a raised subprocess or regex scan degrades to `''`;
the first row matching the address is formatted, no row gives `''`. -/
def arp_lookup_os (scan : ArpScan) : String :=
  match scan with
  | .raised => ""
  | .noMatch => ""
  | .matched raw => format_mac raw

/-- `get_mac_for_ip`: scapy active probe (raising or empty results skipped),
then OS neighbor table, then one best-effort ping followed by a second
neighbor-table lookup.  The `lru_cache` memoization does not change the
value computed and is omitted. -/
def get_mac_for_ip (env : NetEnv) (ip : String) : String :=
  if ip = "" then ""
  else
    let viaScapy :=
      if env.hasScapy then
        match env.scapy with
        | .ok guessed => if guessed ≠ "" then format_mac guessed else ""
        | .error _ => ""
      else ""
    if viaScapy ≠ "" then viaScapy
    else
      let mac := arp_lookup_os env.arpBefore
      if mac ≠ "" then mac
      else arp_lookup_os env.arpAfter

/-- `get_vendor_for_mac`: offline vendor-database lookup; on a raising
first lookup, one `update_vendors` refresh plus retry (modelled together
as `lookupRetry`), and any raising step degrades to `''`. -/
def get_vendor_for_mac (env : NetEnv) (mac : String) : String :=
  if mac = "" ∨ ¬env.hasMacLookup then ""
  else if ¬env.maclookAvailable then ""
  else
    match env.lookupFirst with
    | .ok vendor => vendor
    | .error _ =>
      match env.lookupRetry with
      | .ok vendor => vendor
      | .error _ => ""


/-! ## `discovery.py`: orchestrator state and event handling -/

/-- The meta-enumeration service type browsed at startup. -/
def metaType : String := "_services._dns-sd._udp.local."

/-- Normalization of an advertised type name in the meta-type branch of
`add_service` (lines 187-192): ensure it ends with `.local.`. -/
def normalizeServiceType (name : String) : String :=
  if endsWithStr name ".local." then name
  else if endsWithStr name ".local" then name ++ "."
  else name ++ ".local."

/-- The `ip_v4`/`ip_v6` loop of `add_service` (lines 250-257): walk the
parsed addresses; an address containing `':'` overwrites `ip_v6` and the
scan continues, the first address without `':'` sets `ip_v4` and breaks. -/
def deriveIpsAux (v6 : String) : List String → String × String
  | [] => ("", v6)
  | a :: rest => if containsChar a ':' then deriveIpsAux a rest else (a, v6)

def deriveIps (addrs : List String) : String × String := deriveIpsAux "" addrs

/-- The minimal device appended when `get_service_info` returns `None`
(lines 214-233): type, name and derived friendly name only, every other
field empty. -/
def minimalDevice (type name : String) : Device :=
  { type := type, name := name, friendly := friendlyNameNoInfo type, hostname := "",
    ip := "", mac := "", vendor := "", serviceInfo := none, properties := [] }

/-- The device built from a resolved `ServiceInfo` (lines 235-292). -/
def resolvedDevice (type name : String) (info : SInfo) : Device :=
  { type := type, name := name, friendly := friendlyName type info.properties,
    hostname := rstripDots info.server,
    ip := (if (deriveIps info.addresses).1 ≠ "" then (deriveIps info.addresses).1
           else (deriveIps info.addresses).2),
    mac := "", vendor := "", serviceInfo := some info, properties := info.properties }

/-- Process-wide mutable state of the discovery module: the `_discovered`
dedup-key set, the `_browsed_types` set, the `_discovered_devices` list,
plus two observation logs — which `ServiceBrowser` constructions were
attempted and which `(type, name)` pairs were passed to
`get_service_info` — and the queue of enrichment submissions. -/
structure DState where
  discovered : List (String × String)
  browsedTypes : List String
  devices : List Device
  browsersStarted : List String
  resolveLog : List (String × String)
  enrichQueue : List Nat
deriving DecidableEq, Repr

def initState : DState :=
  { discovered := [], browsedTypes := [], devices := [], browsersStarted := [],
    resolveLog := [], enrichQueue := [] }

/-- `Listener.add_service`, with the resolve environment `env` giving the
outcome of `zeroconf.get_service_info(type, name, timeout=2500)`. -/
def addService (env : String → String → ResolveOutcome) (s : DState)
    (type name : String) : DState :=
  if type = metaType then
    let serviceType := normalizeServiceType name
    if serviceType ∈ s.browsedTypes then s
    else { s with browsedTypes := s.browsedTypes ++ [serviceType],
                  browsersStarted := s.browsersStarted ++ [serviceType] }
  else
    if (type, name) ∈ s.discovered then s
    else
      let s1 := { s with discovered := s.discovered ++ [(type, name)],
                         resolveLog := s.resolveLog ++ [(type, name)] }
      match env type name with
      | .error => s1
      | .absent => { s1 with devices := s1.devices ++ [minimalDevice type name] }
      | .found info =>
        let device := resolvedDevice type name info
        let s2 := { s1 with devices := s1.devices ++ [device] }
        if device.ip ≠ "" then
          { s2 with enrichQueue := s2.enrichQueue ++ [s2.devices.length - 1] }
        else s2

/-- `Listener.update_service` delegates to `add_service`. -/
def updateService (env : String → String → ResolveOutcome) (s : DState)
    (type name : String) : DState :=
  addService env s type name

/-- `Listener.remove_service`: discard the dedup key only. -/
def removeService (s : DState) (type name : String) : DState :=
  { s with discovered := s.discovered.erase (type, name) }

inductive EventKind where
  | add : EventKind
  | update : EventKind
  | remove : EventKind
deriving DecidableEq, Repr

structure Event where
  kind : EventKind
  type : String
  name : String
deriving DecidableEq, Repr

def eventKey (e : Event) : String × String := (e.type, e.name)

def step (env : String → String → ResolveOutcome) (s : DState) (e : Event) : DState :=
  match e.kind with
  | .add => addService env s e.type e.name
  | .update => updateService env s e.type e.name
  | .remove => removeService s e.type e.name

def processEvents (env : String → String → ResolveOutcome) (s : DState)
    (events : List Event) : DState :=
  events.foldl (step env) s

/-- The locked write-back block of `_enrich_device_mac_vendor`
(lines 160-167): each field is written only when the looked-up value is
non-empty and the stored field is still empty. -/
def enrichWrite (d : Device) (mac vendor : String) : Device :=
  let d1 := if mac ≠ "" ∧ d.mac = "" then { d with mac := mac } else d
  if vendor ≠ "" ∧ d1.vendor = "" then { d1 with vendor := vendor } else d1

/-- `_enrich_device_mac_vendor`, with the two resolvers abstracted:
bounds check, no-op on an empty address, then first-success-wins writes
of MAC and vendor. -/
def enrich_device_mac_vendor (getMac getVendor : String → String)
    (devices : List Device) (device_index : Nat) : List Device :=
  if h : device_index < devices.length then
    let device := devices.get ⟨device_index, h⟩
    if device.ip = "" then devices
    else
      let mac := getMac device.ip
      let vendor := if mac ≠ "" then getVendor mac else ""
      devices.set device_index (enrichWrite device mac vendor)
  else devices

/-! ## `discovery.py`: JSON export -/

/-- The JSON values occurring in an exported device record. -/
inductive JValue where
  | null : JValue
  | str : String → JValue
  | obj : List (String × String) → JValue
deriving DecidableEq, Repr

/-- One exported record: every key of the device dict in insertion order,
with the `service_info` value replaced by `None` (line 334). -/
def exportDevice (d : Device) : List (String × JValue) :=
  [("type", .str d.type), ("name", .str d.name), ("friendly", .str d.friendly),
   ("hostname", .str d.hostname), ("ip", .str d.ip), ("mac", .str d.mac),
   ("vendor", .str d.vendor), ("service_info", .null), ("properties", .obj d.properties)]

/-- `export_devices_json`: the array of flat records serialized to the
output file. -/
def export_devices_json (devices : List Device) : List (List (String × JValue)) :=
  devices.map exportDevice

/-! ## Shared helper lemmas -/

/-- Every value in an association list with non-empty values looked up
successfully is non-empty. -/
lemma lookup_val_ne_empty (l : List (String × String)) (hl : ∀ p ∈ l, p.2 ≠ "")
    (t v : String) (h : l.lookup t = some v) : v ≠ "" := by
  induction l with
  | nil => simp [List.lookup] at h
  | cons p rest ih =>
    rw [List.lookup] at h
    by_cases he : t == p.1
    · simp [he] at h
      exact h ▸ hl p (List.mem_cons_self p rest)
    · simp [he] at h
      exact ih (fun q hq => hl q (List.mem_cons_of_mem p hq)) h

lemma append_service_ne_empty (s : String) : s ++ " (service)" ≠ "" := by
  intro h
  have hd := congrArg String.data h
  rw [String.data_append s " (service)"] at hd
  simp at hd

lemma friendlyNameNoInfo_ne_empty (t : String) : friendlyNameNoInfo t ≠ "" := by
  unfold friendlyNameNoInfo
  split
  · next v h => exact lookup_val_ne_empty SERVICE_SUFFIX_TO_NAME (by decide) t v h
  · split
    · next v h =>
      exact lookup_val_ne_empty SERVICE_TYPE_NAMES (by decide) (extract_service_name t) v h
    · exact append_service_ne_empty (extract_service_name t)

/-! ## Claim theorems: enrichment invariants -/

lemma enrichWrite_mac (d : Device) (m v : String) (hm : d.mac ≠ "") :
    (enrichWrite d m v).mac = d.mac := by
  unfold enrichWrite
  simp only [hm, and_false, if_false, ne_eq]
  split <;> rfl

lemma enrichWrite_vendor (d : Device) (m v : String) (hv : d.vendor ≠ "") :
    (enrichWrite d m v).vendor = d.vendor := by
  unfold enrichWrite
  by_cases h1 : m ≠ "" ∧ d.mac = "" <;> simp [h1, hv]

/-- C2: once a device's `mac` or `vendor` field holds a non-empty value,
re-running enrichment at that index — with resolvers returning any
values, including different non-empty ones — leaves the stored value
unchanged: first successful enrichment wins. -/
theorem enrich_never_overwrites (getMac getVendor : String → String)
    (devices : List Device) (i : Nat) :
    ((devices.getD i defaultDevice).mac ≠ "" →
      ((enrich_device_mac_vendor getMac getVendor devices i).getD i defaultDevice).mac
        = (devices.getD i defaultDevice).mac) ∧
    ((devices.getD i defaultDevice).vendor ≠ "" →
      ((enrich_device_mac_vendor getMac getVendor devices i).getD i defaultDevice).vendor
        = (devices.getD i defaultDevice).vendor) := by
  by_cases h : i < devices.length
  · have hget : devices.getD i defaultDevice = devices[i] := by
      simp [List.getD_eq_getElem?_getD, List.getElem?_eq_getElem, h]
    by_cases hip : devices[i].ip = ""
    · have heq : enrich_device_mac_vendor getMac getVendor devices i = devices := by
        simp [enrich_device_mac_vendor, h, hip]
      rw [heq]
      exact ⟨fun _ => rfl, fun _ => rfl⟩
    · have heq : enrich_device_mac_vendor getMac getVendor devices i =
          devices.set i (enrichWrite devices[i]
            (getMac devices[i].ip)
            (if getMac devices[i].ip = "" then ""
             else getVendor (getMac devices[i].ip))) := by
        simp [enrich_device_mac_vendor, h, hip]
      have hset : ∀ d : Device, ((devices.set i d).getD i defaultDevice) = d := by
        intro d
        simp [List.getD_eq_getElem?_getD, List.getElem?_set_self', h]
      rw [heq, hget, hset]
      exact ⟨enrichWrite_mac _ _ _, enrichWrite_vendor _ _ _⟩
  · have heq : enrich_device_mac_vendor getMac getVendor devices i = devices := by
      simp [enrich_device_mac_vendor, h]
    rw [heq]
    exact ⟨fun _ => rfl, fun _ => rfl⟩

def c2Device : Device :=
  { defaultDevice with ip := "192.168.1.9", mac := "AA:AA:AA:AA:AA:AA", vendor := "Acme" }

theorem enrich_never_overwrites_witness :
    ((([c2Device].getD 0 defaultDevice).mac ≠ "") ∧
      ((enrich_device_mac_vendor (fun _ => "BB:BB:BB:BB:BB:BB") (fun _ => "Other")
          [c2Device] 0).getD 0 defaultDevice).mac = ([c2Device].getD 0 defaultDevice).mac) ∧
    ((([c2Device].getD 0 defaultDevice).vendor ≠ "") ∧
      ((enrich_device_mac_vendor (fun _ => "BB:BB:BB:BB:BB:BB") (fun _ => "Other")
          [c2Device] 0).getD 0 defaultDevice).vendor = ([c2Device].getD 0 defaultDevice).vendor) :=
  ⟨⟨by decide, (enrich_never_overwrites (fun _ => "BB:BB:BB:BB:BB:BB") (fun _ => "Other")
      [c2Device] 0).1 (by decide)⟩,
   ⟨by decide, (enrich_never_overwrites (fun _ => "BB:BB:BB:BB:BB:BB") (fun _ => "Other")
      [c2Device] 0).2 (by decide)⟩⟩

/-- C9: every network/OS/database error in MAC or vendor resolution
degrades to an empty result — an all-raising environment yields `''`
from both lookups — and enrichment of an out-of-range index or of a
device with an empty address leaves the Device Store unchanged. -/
theorem enrichment_never_raises (env : NetEnv) (ip mac : String)
    (getMac getVendor : String → String) (devices : List Device) (i : Nat) :
    (env.scapy = .error () → env.arpBefore = .raised → env.arpAfter = .raised →
      get_mac_for_ip env ip = "") ∧
    (env.lookupFirst = .error () → env.lookupRetry = .error () →
      get_vendor_for_mac env mac = "") ∧
    (devices.length ≤ i → enrich_device_mac_vendor getMac getVendor devices i = devices) ∧
    ((devices.getD i defaultDevice).ip = "" →
      enrich_device_mac_vendor getMac getVendor devices i = devices) := by
  refine ⟨?_, ?_, ?_, ?_⟩
  · intro h1 h2 h3
    unfold get_mac_for_ip arp_lookup_os
    by_cases hip : ip = ""
    · simp [hip]
    · by_cases hs : env.hasScapy <;> simp [hip, hs, h1, h2, h3]
  · intro h1 h2
    unfold get_vendor_for_mac
    by_cases hm : mac = "" <;> by_cases hl : env.hasMacLookup <;>
      by_cases ha : env.maclookAvailable <;> simp [hm, hl, ha, h1, h2]
  · intro hlen
    simp [enrich_device_mac_vendor, Nat.not_lt.mpr hlen]
  · intro hip
    by_cases h : i < devices.length
    · have hget : devices.getD i defaultDevice = devices[i] := by
        simp [List.getD_eq_getElem?_getD, List.getElem?_eq_getElem, h]
      rw [hget] at hip
      simp [enrich_device_mac_vendor, h, hip]
    · simp [enrich_device_mac_vendor, h]

def failingNetEnv : NetEnv :=
  { hasScapy := true, scapy := .error (), arpBefore := .raised, arpAfter := .raised,
    hasMacLookup := true, maclookAvailable := true,
    lookupFirst := .error (), lookupRetry := .error () }

theorem enrichment_never_raises_witness :
    (get_mac_for_ip failingNetEnv "192.168.1.9" = "") ∧
    (get_vendor_for_mac failingNetEnv "AA:AA:AA:AA:AA:AA" = "") ∧
    (enrich_device_mac_vendor (fun _ => "M") (fun _ => "V") [] 3 = []) ∧
    (enrich_device_mac_vendor (fun _ => "M") (fun _ => "V") [defaultDevice] 0
      = [defaultDevice]) :=
  ⟨(enrichment_never_raises failingNetEnv "192.168.1.9" "AA:AA:AA:AA:AA:AA"
      (fun _ => "M") (fun _ => "V") [] 3).1 rfl rfl rfl,
   (enrichment_never_raises failingNetEnv "192.168.1.9" "AA:AA:AA:AA:AA:AA"
      (fun _ => "M") (fun _ => "V") [] 3).2.1 rfl rfl,
   (enrichment_never_raises failingNetEnv "192.168.1.9" "AA:AA:AA:AA:AA:AA"
      (fun _ => "M") (fun _ => "V") [] 3).2.2.1 (by decide),
   (enrichment_never_raises failingNetEnv "192.168.1.9" "AA:AA:AA:AA:AA:AA"
      (fun _ => "M") (fun _ => "V") [defaultDevice] 0).2.2.2 (by decide)⟩

/-! ## Claim theorems: export -/

def sampleInfo : SInfo :=
  { server := "bridge.local.", addresses := ["192.168.1.2"], properties := [("fn", "Bridge")] }

def c4Device : Device :=
  { type := "_hue._tcp.local.", name := "Bridge._hue._tcp.local.",
    friendly := "Philips Hue Bridge", hostname := "bridge.local", ip := "192.168.1.2",
    mac := "AA:AA:AA:AA:AA:AA", vendor := "Philips", serviceInfo := some sampleInfo,
    properties := [("fn", "Bridge")] }

/-- C4 counterexample: exporting a store with one device whose raw
service info is populated yields one record, but that record does
contain the `service_info` key (with a null value) — contradicting the
claim that no exported record contains the raw-service-info field. -/
theorem export_record_has_rawinfo_key :
    (export_devices_json [c4Device]).length = 1 ∧
    ((export_devices_json [c4Device]).getD 0 []).lookup "service_info"
      = some JValue.null := by decide

/-- C4 amended: exporting a store of N devices yields exactly N records;
each record carries the `service_info` key with a null value — the
opaque raw-service-info object itself is never serialized — and every
other field of the record equals the in-memory snapshot at export time. -/
theorem export_preserves_snapshot (devices : List Device) (d : Device) :
    (export_devices_json devices).length = devices.length ∧
    (exportDevice d).lookup "type" = some (JValue.str d.type) ∧
    (exportDevice d).lookup "name" = some (JValue.str d.name) ∧
    (exportDevice d).lookup "friendly" = some (JValue.str d.friendly) ∧
    (exportDevice d).lookup "hostname" = some (JValue.str d.hostname) ∧
    (exportDevice d).lookup "ip" = some (JValue.str d.ip) ∧
    (exportDevice d).lookup "mac" = some (JValue.str d.mac) ∧
    (exportDevice d).lookup "vendor" = some (JValue.str d.vendor) ∧
    (exportDevice d).lookup "service_info" = some JValue.null ∧
    (exportDevice d).lookup "properties" = some (JValue.obj d.properties) := by
  refine ⟨?_, ?_, ?_, ?_, ?_, ?_, ?_, ?_, ?_, ?_⟩
  · simp [export_devices_json]
  all_goals rfl

/-! ## Claim theorems: address derivation -/

lemma deriveIpsAux_fst (acc : String) (l : List String) :
    (deriveIpsAux acc l).1 = "" ∨
      ((deriveIpsAux acc l).1 ∈ l ∧ containsChar (deriveIpsAux acc l).1 ':' = false) := by
  induction l generalizing acc with
  | nil => exact Or.inl rfl
  | cons a rest ih =>
    simp only [deriveIpsAux]
    by_cases hc : containsChar a ':'
    · rw [if_pos hc]
      rcases ih a with h | ⟨hm, hcc⟩
      · exact Or.inl h
      · exact Or.inr ⟨List.mem_cons_of_mem a hm, hcc⟩
    · rw [if_neg hc]
      exact Or.inr ⟨List.mem_cons_self a rest, by simpa using hc⟩

lemma deriveIpsAux_snd (acc : String) (l : List String) :
    (deriveIpsAux acc l).2 = acc ∨
      ((deriveIpsAux acc l).2 ∈ l ∧ containsChar (deriveIpsAux acc l).2 ':' = true) := by
  induction l generalizing acc with
  | nil => exact Or.inl rfl
  | cons a rest ih =>
    simp only [deriveIpsAux]
    by_cases hc : containsChar a ':'
    · rw [if_pos hc]
      rcases ih a with h | ⟨hm, hcc⟩
      · rw [h]
        exact Or.inr ⟨List.mem_cons_self a rest, hc⟩
      · exact Or.inr ⟨List.mem_cons_of_mem a hm, hcc⟩
    · rw [if_neg hc]
      exact Or.inl rfl

def envBothFamilies : String → String → ResolveOutcome := fun _ _ =>
  .found { server := "host.local.", addresses := ["fe80::1", "192.168.1.5"],
           properties := [] }

def c3State : DState := addService envBothFamilies initState "_x._tcp.local." "dev"

/-- C3 counterexample: resolving an instance that advertises both an
IPv6 and an IPv4 address appends a record whose single address field
`ip` holds the IPv4; the exported record has no `ipv4` or `ipv6` key and
the advertised IPv6 address `fe80::1` appears in no field value — it is
not retained in the device record, only inside the opaque raw info. -/
theorem ipv6_not_retained_in_record :
    (c3State.devices.getD 0 defaultDevice).ip = "192.168.1.5" ∧
    ((export_devices_json c3State.devices).getD 0 []).lookup "ipv4" = none ∧
    ((export_devices_json c3State.devices).getD 0 []).lookup "ipv6" = none ∧
    ((export_devices_json c3State.devices).getD 0 []).all
      (fun kv => kv.2 != JValue.str "fe80::1") = true := by decide

/-- C3 amended: when resolution succeeds the orchestrator derives an
IPv4 (the first address without `':'`) and an IPv6 (the last address
containing `':'` seen before that) from the resolved address list; the
appended record carries a single `ip` field which is the IPv4 when one
was derived and the IPv6 otherwise — when both families are advertised
the IPv4 wins and the IPv6 is not retained as a field of the record. -/
theorem ipv4_display_priority (env : String → String → ResolveOutcome)
    (s : DState) (type name : String) (info : SInfo)
    (hmeta : type ≠ metaType) (hnew : (type, name) ∉ s.discovered)
    (henv : env type name = ResolveOutcome.found info) :
    ((addService env s type name).devices = s.devices ++ [resolvedDevice type name info]) ∧
    ((resolvedDevice type name info).ip =
      (if (deriveIps info.addresses).1 ≠ "" then (deriveIps info.addresses).1
       else (deriveIps info.addresses).2)) ∧
    ((deriveIps info.addresses).1 = "" ∨
      ((deriveIps info.addresses).1 ∈ info.addresses ∧
        containsChar (deriveIps info.addresses).1 ':' = false)) ∧
    ((deriveIps info.addresses).2 = "" ∨
      ((deriveIps info.addresses).2 ∈ info.addresses ∧
        containsChar (deriveIps info.addresses).2 ':' = true)) ∧
    ((exportDevice (resolvedDevice type name info)).lookup "ipv4" = none) ∧
    ((exportDevice (resolvedDevice type name info)).lookup "ipv6" = none) := by
  refine ⟨?_, rfl, deriveIpsAux_fst "" info.addresses, deriveIpsAux_snd "" info.addresses,
    rfl, rfl⟩
  unfold addService
  rw [if_neg hmeta, if_neg hnew, henv]
  by_cases hip : (resolvedDevice type name info).ip ≠ "" <;> simp [hip]

def c3Witness : DState :=
  addService envBothFamilies initState "_y._tcp.local." "dev2"

theorem ipv4_display_priority_witness :
    (c3Witness.devices = initState.devices ++
      [resolvedDevice "_y._tcp.local." "dev2"
        { server := "host.local.", addresses := ["fe80::1", "192.168.1.5"],
          properties := [] }]) ∧
    ((resolvedDevice "_y._tcp.local." "dev2"
        { server := "host.local.", addresses := ["fe80::1", "192.168.1.5"],
          properties := [] }).ip = "192.168.1.5") :=
  ⟨(ipv4_display_priority envBothFamilies initState "_y._tcp.local." "dev2"
      { server := "host.local.", addresses := ["fe80::1", "192.168.1.5"],
        properties := [] } (by decide) (by decide) rfl).1,
   by decide⟩

/-! ## Claim theorems: refresh and resolve-failure semantics -/

def envError : String → String → ResolveOutcome := fun _ _ => ResolveOutcome.error

def c5Events : List Event :=
  [{ kind := EventKind.add, type := "_x._tcp.local.", name := "i" },
   { kind := EventKind.update, type := "_x._tcp.local.", name := "i" }]

/-- C5 counterexample: an add event whose resolution raises is followed
by an update event for the same key.  The add marked the dedup key and
appended nothing; the update is dropped at the dedup check, so only one
resolve call is ever made and the store stays empty — the update does
not proceed to resolution again. -/
theorem update_never_reresolves :
    (processEvents envError initState c5Events).resolveLog
      = [("_x._tcp.local.", "i")] ∧
    (processEvents envError initState c5Events).devices = [] := by decide

/-- C5 amended: an update event reruns the same add logic; an add or
update whose dedup key is already present is dropped at the dedup check
— regardless of whether the earlier resolution failed — leaving the
resolve log and the Device Store unchanged, and detail resolution is
attempted exactly when the key is not yet in the dedup set. -/
theorem update_refresh_semantics (env : String → String → ResolveOutcome)
    (s : DState) (type name : String) :
    (updateService env s type name = addService env s type name) ∧
    ((type, name) ∈ s.discovered →
      (addService env s type name).resolveLog = s.resolveLog ∧
      (addService env s type name).devices = s.devices) ∧
    (type ≠ metaType → (type, name) ∉ s.discovered →
      (addService env s type name).resolveLog = s.resolveLog ++ [(type, name)]) := by
  refine ⟨rfl, ?_, ?_⟩
  · intro hmem
    unfold addService
    by_cases hmeta : type = metaType
    · rw [if_pos hmeta]
      dsimp only
      by_cases hb : normalizeServiceType name ∈ s.browsedTypes
      · rw [if_pos hb]; exact ⟨rfl, rfl⟩
      · rw [if_neg hb]; exact ⟨rfl, rfl⟩
    · rw [if_neg hmeta, if_pos hmem]
      exact ⟨rfl, rfl⟩
  · intro hmeta hnew
    unfold addService
    rw [if_neg hmeta, if_neg hnew]
    cases henv : env type name with
    | error => rfl
    | absent => rfl
    | found info =>
      dsimp only
      by_cases hip : (resolvedDevice type name info).ip ≠ ""
      · rw [if_pos hip]
      · rw [if_neg hip]

def c5WitnessState : DState :=
  { initState with discovered := [("_x._tcp.local.", "i")] }

theorem update_refresh_semantics_witness :
    (updateService envError c5WitnessState "_x._tcp.local." "i"
      = addService envError c5WitnessState "_x._tcp.local." "i") ∧
    ((addService envError c5WitnessState "_x._tcp.local." "i").resolveLog
      = c5WitnessState.resolveLog) ∧
    ((addService envError c5WitnessState "_x._tcp.local." "i").devices
      = c5WitnessState.devices) ∧
    ((addService envError c5WitnessState "_y._tcp.local." "j").resolveLog
      = c5WitnessState.resolveLog ++ [("_y._tcp.local.", "j")]) :=
  ⟨(update_refresh_semantics envError c5WitnessState "_x._tcp.local." "i").1,
   ((update_refresh_semantics envError c5WitnessState "_x._tcp.local." "i").2.1
     (by decide)).1,
   ((update_refresh_semantics envError c5WitnessState "_x._tcp.local." "i").2.1
     (by decide)).2,
   (update_refresh_semantics envError c5WitnessState "_y._tcp.local." "j").2.2
     (by decide) (by decide)⟩

/-- C6: for a fresh key, a raising or timed-out resolve call drops the
add event entirely — the Device Store is unchanged, no partial device is
appended — while a resolve call returning no information appends a
minimal device whose type, name and derived (non-empty) friendly name
are set and whose hostname, address, MAC, vendor and metadata fields are
all empty. -/
theorem resolve_failure_asymmetry (env : String → String → ResolveOutcome)
    (s : DState) (type name : String)
    (hmeta : type ≠ metaType) (hnew : (type, name) ∉ s.discovered) :
    (env type name = ResolveOutcome.error →
      (addService env s type name).devices = s.devices) ∧
    (env type name = ResolveOutcome.absent →
      (addService env s type name).devices = s.devices ++ [minimalDevice type name]) ∧
    (minimalDevice type name =
      { type := type, name := name, friendly := friendlyNameNoInfo type, hostname := "",
        ip := "", mac := "", vendor := "", serviceInfo := none, properties := [] }) ∧
    ((minimalDevice type name).friendly ≠ "") := by
  refine ⟨?_, ?_, rfl, friendlyNameNoInfo_ne_empty type⟩
  · intro henv
    unfold addService
    rw [if_neg hmeta, if_neg hnew, henv]
  · intro henv
    unfold addService
    rw [if_neg hmeta, if_neg hnew, henv]

def envAbsent : String → String → ResolveOutcome := fun _ _ => ResolveOutcome.absent

theorem resolve_failure_asymmetry_witness :
    ((addService envError initState "_x._tcp.local." "i").devices
      = initState.devices) ∧
    ((addService envAbsent initState "_x._tcp.local." "i").devices
      = initState.devices ++ [minimalDevice "_x._tcp.local." "i"]) ∧
    ((minimalDevice "_x._tcp.local." "i").friendly ≠ "") :=
  ⟨(resolve_failure_asymmetry envError initState "_x._tcp.local." "i"
      (by decide) (by decide)).1 rfl,
   (resolve_failure_asymmetry envAbsent initState "_x._tcp.local." "i"
      (by decide) (by decide)).2.1 rfl,
   (resolve_failure_asymmetry envAbsent initState "_x._tcp.local." "i"
      (by decide) (by decide)).2.2.2⟩

/-! ## Claim theorems: friendly-name resolution -/

/-- C7: friendly-name derivation is a total deterministic function that
always returns a non-empty string and resolves in precedence order —
exact full-type table match, then short-type-name table match, then a
metadata-advertised display name, then the synthesized
`"<short-type> (service)"` fallback; for the unknown type
`_unknown123._tcp.local.` with empty metadata it returns the fallback
string containing `unknown123`. -/
theorem friendly_name_total (t : String) (p : List (String × String)) (v : String) :
    (friendlyName t p ≠ "") ∧
    (SERVICE_SUFFIX_TO_NAME.lookup t = some v → friendlyName t p = v) ∧
    (SERVICE_SUFFIX_TO_NAME.lookup t = none →
      SERVICE_TYPE_NAMES.lookup (extract_service_name t) = some v →
      friendlyName t p = v) ∧
    (SERVICE_SUFFIX_TO_NAME.lookup t = none →
      SERVICE_TYPE_NAMES.lookup (extract_service_name t) = none →
      (p.lookup "fn").getD "" ≠ "" → friendlyName t p = (p.lookup "fn").getD "") ∧
    (SERVICE_SUFFIX_TO_NAME.lookup t = none →
      SERVICE_TYPE_NAMES.lookup (extract_service_name t) = none →
      (p.lookup "fn").getD "" = "" → (p.lookup "name").getD "" = "" →
      friendlyName t p = extract_service_name t ++ " (service)") ∧
    (friendlyName "_unknown123._tcp.local." [] = "unknown123 (service)") ∧
    (strContains (friendlyName "_unknown123._tcp.local." []) "unknown123" = true) := by
  refine ⟨?_, ?_, ?_, ?_, ?_, by decide, by decide⟩
  · unfold friendlyName
    cases h1 : SERVICE_SUFFIX_TO_NAME.lookup t with
    | some w => exact lookup_val_ne_empty SERVICE_SUFFIX_TO_NAME (by decide) t w h1
    | none =>
      cases h2 : SERVICE_TYPE_NAMES.lookup (extract_service_name t) with
      | some w =>
        exact lookup_val_ne_empty SERVICE_TYPE_NAMES (by decide) (extract_service_name t) w h2
      | none =>
        dsimp only
        by_cases hfn : (p.lookup "fn").getD "" ≠ ""
        · rw [if_pos hfn]; exact hfn
        · rw [if_neg hfn]
          by_cases hnm : (p.lookup "name").getD "" ≠ ""
          · rw [if_pos hnm]; exact hnm
          · rw [if_neg hnm]; exact append_service_ne_empty (extract_service_name t)
  · intro h1
    unfold friendlyName
    rw [h1]
  · intro h1 h2
    unfold friendlyName
    rw [h1, h2]
  · intro h1 h2 hfn
    unfold friendlyName
    rw [h1, h2]
    dsimp only
    rw [if_pos hfn]
  · intro h1 h2 hfn hnm
    unfold friendlyName
    rw [h1, h2]
    dsimp only
    rw [if_neg (by simpa using hfn)]
    rw [if_neg (by simpa using hnm)]

theorem friendly_name_total_witness :
    (friendlyName "_hue._tcp.local." [("fn", "Ignored")] = "Philips Hue Bridge") ∧
    (friendlyName "_x._tcp.local." [("fn", "My Device")] = "My Device") ∧
    (friendlyName "_x._tcp.local." [] = "x (service)") :=
  ⟨(friendly_name_total "_hue._tcp.local." [("fn", "Ignored")] "Philips Hue Bridge").2.1
      (by decide),
   (friendly_name_total "_x._tcp.local." [("fn", "My Device")] "My Device").2.2.2.1
      (by decide) (by decide) (by decide),
   (friendly_name_total "_x._tcp.local." [] "unused").2.2.2.2.1
      (by decide) (by decide) (by decide) (by decide)⟩

/-! ## Claim theorems: handler dispatch -/

def hueHandler : HandlerEntry := { hname := "Philips Hue", tag := 1 }

def haHandler : HandlerEntry := { hname := "Home Assistant", tag := 2 }

def c8Registry : List (String × HandlerEntry) :=
  register_device_handler
    (register_device_handler [] "hue" hueHandler) "home-assistant" haHandler

def c8Device : Device :=
  { defaultDevice with
    type := "_hue._tcp.local.", name := "Bridge._hue._tcp.local.",
    friendly := "Philips Hue Bridge", properties := [("homeassistant", "1")] }

/-- C8: handler lookup resolves in three ordered passes — exact
short-type key, then metadata-substring heuristic, then registered key
as substring of the folded friendly or instance name — returning the
first match; a device of short type `hue` with home-assistant-style
metadata resolves to the registered `hue` handler, and when no pass
matches the result is an explicit `none`. -/
theorem handler_three_pass (reg : List (String × HandlerEntry)) (dev : Device)
    (h : HandlerEntry) :
    (reg.lookup (extract_service_name dev.type) = some h →
      find_handler_for_device reg dev = some h) ∧
    (reg.lookup (extract_service_name dev.type) = none →
      propsPass reg dev.properties = some h →
      find_handler_for_device reg dev = some h) ∧
    (reg.lookup (extract_service_name dev.type) = none →
      propsPass reg dev.properties = none →
      reg.find? (fun kv => strContains (lowerStr dev.friendly) kv.1 ||
        strContains (lowerStr dev.name) kv.1) = none →
      find_handler_for_device reg dev = none) ∧
    (find_handler_for_device c8Registry c8Device = some hueHandler) := by
  refine ⟨?_, ?_, ?_, by decide⟩
  · intro h1
    unfold find_handler_for_device
    dsimp only
    rw [h1]
  · intro h1 h2
    unfold find_handler_for_device
    dsimp only
    rw [h1, h2]
  · intro h1 h2 h3
    unfold find_handler_for_device
    dsimp only
    rw [h1, h2, h3]
    rfl

def c8EmptyDevice : Device :=
  { defaultDevice with type := "_zzz._tcp.local.", name := "z", friendly := "z" }

theorem handler_three_pass_witness :
    (find_handler_for_device c8Registry c8Device = some hueHandler) ∧
    (find_handler_for_device [] c8EmptyDevice = none) :=
  ⟨(handler_three_pass c8Registry c8Device hueHandler).1 (by decide),
   (handler_three_pass [] c8EmptyDevice hueHandler).2.2.1 (by decide) (by decide)
     (by decide)⟩

/-! ## Claim theorems: deduplication -/

/-- Number of Device Store entries carrying the dedup key `k`. -/
def keyCount (k : String × String) (devices : List Device) : Nat :=
  (devices.filter (fun d => d.type == k.1 && d.name == k.2)).length

lemma keyCount_append (k : String × String) (l1 l2 : List Device) :
    keyCount k (l1 ++ l2) = keyCount k l1 + keyCount k l2 := by
  simp [keyCount, List.filter_append]

lemma keyCount_single (k : String × String) (d : Device) :
    keyCount k [d] = if d.type = k.1 ∧ d.name = k.2 then 1 else 0 := by
  by_cases h1 : d.type = k.1 <;> by_cases h2 : d.name = k.2 <;>
    simp [keyCount, h1, h2]

lemma keyCount_inv_step (s : DState) (type name : String) (d : Device)
    (hd1 : d.type = type) (hd2 : d.name = name)
    (hmem : (type, name) ∉ s.discovered)
    (hs : ∀ k : String × String,
      keyCount k s.devices = if k ∈ s.discovered then 1 else 0)
    (k : String × String) :
    keyCount k (s.devices ++ [d]) =
      if k ∈ s.discovered ++ [(type, name)] then 1 else 0 := by
  rw [keyCount_append, keyCount_single, hs k, hd1, hd2]
  by_cases hk : k = (type, name)
  · subst hk
    simp [hmem]
  · have hcond : ¬(type = k.1 ∧ name = k.2) := by
      rintro ⟨h1, h2⟩
      apply hk
      cases k
      simp only [Prod.mk.injEq]
      exact ⟨h1.symm, h2.symm⟩
    rw [if_neg hcond]
    simp [List.mem_append, hk]

lemma addService_inv (env : String → String → ResolveOutcome) (s : DState)
    (type name : String) (hmeta : type ≠ metaType)
    (herr : env type name ≠ ResolveOutcome.error)
    (hs : ∀ k : String × String,
      keyCount k s.devices = if k ∈ s.discovered then 1 else 0) :
    (∀ k : String × String, keyCount k (addService env s type name).devices =
      if k ∈ (addService env s type name).discovered then 1 else 0) ∧
    (∀ k : String × String, k ∈ (addService env s type name).discovered ↔
      k ∈ s.discovered ∨ k = (type, name)) := by
  unfold addService
  rw [if_neg hmeta]
  by_cases hmem : (type, name) ∈ s.discovered
  · rw [if_pos hmem]
    refine ⟨hs, fun k => ⟨Or.inl, ?_⟩⟩
    rintro (h | rfl)
    · exact h
    · exact hmem
  · rw [if_neg hmem]
    cases henv : env type name with
    | error => exact absurd henv herr
    | absent =>
      dsimp only
      exact ⟨keyCount_inv_step s type name (minimalDevice type name) rfl rfl hmem hs,
        fun k => by simp [List.mem_append]⟩
    | found info =>
      dsimp only
      by_cases hip : (resolvedDevice type name info).ip ≠ ""
      · rw [if_pos hip]
        exact ⟨keyCount_inv_step s type name (resolvedDevice type name info) rfl rfl hmem hs,
          fun k => by simp [List.mem_append]⟩
      · rw [if_neg hip]
        exact ⟨keyCount_inv_step s type name (resolvedDevice type name info) rfl rfl hmem hs,
          fun k => by simp [List.mem_append]⟩

lemma processEvents_inv (env : String → String → ResolveOutcome) (events : List Event) :
    ∀ s : DState,
      (∀ e ∈ events, (e.kind = EventKind.add ∨ e.kind = EventKind.update) ∧
        e.type ≠ metaType ∧ env e.type e.name ≠ ResolveOutcome.error) →
      (∀ k : String × String,
        keyCount k s.devices = if k ∈ s.discovered then 1 else 0) →
      (∀ k : String × String, keyCount k (processEvents env s events).devices =
        if k ∈ (processEvents env s events).discovered then 1 else 0) ∧
      (∀ k : String × String, k ∈ (processEvents env s events).discovered ↔
        k ∈ s.discovered ∨ k ∈ events.map eventKey) := by
  induction events with
  | nil =>
    intro s _ hs
    exact ⟨hs, fun k => by simp [processEvents]⟩
  | cons e rest ih =>
    intro s hge hs
    obtain ⟨hkind, hmeta, herr⟩ := hge e (List.mem_cons_self e rest)
    have hstep : step env s e = addService env s e.type e.name := by
      rcases hkind with h | h <;> simp [step, h, updateService]
    have hpe : processEvents env s (e :: rest) =
        processEvents env (step env s e) rest := rfl
    have hinv := addService_inv env s e.type e.name hmeta herr hs
    rw [hstep] at hpe
    obtain ⟨h1, h2⟩ := ih (addService env s e.type e.name)
      (fun e2 he2 => hge e2 (List.mem_cons_of_mem e he2)) hinv.1
    refine ⟨by rw [hpe]; exact h1, fun k => ?_⟩
    rw [hpe, h2 k]
    rw [hinv.2 k]
    simp [eventKey, or_assoc]

/-- C1: over any sequence of add and update events — duplicates allowed,
no removes, no meta-type events, resolution never raising — the Device
Store ends with exactly one appended entry per unique `(type, name)`
pair occurring in the sequence and none for any other pair; moreover an
add delivered for a key already marked in the dedup set never appends a
second entry. -/
theorem dedup_exactly_one_entry (env : String → String → ResolveOutcome)
    (events : List Event) (k : String × String)
    (hge : ∀ e ∈ events, (e.kind = EventKind.add ∨ e.kind = EventKind.update) ∧
      e.type ≠ metaType ∧ env e.type e.name ≠ ResolveOutcome.error) :
    (keyCount k (processEvents env initState events).devices =
      if k ∈ events.map eventKey then 1 else 0) ∧
    (∀ (s : DState) (type name : String), (type, name) ∈ s.discovered →
      (addService env s type name).devices = s.devices) := by
  constructor
  · obtain ⟨h1, h2⟩ := processEvents_inv env events initState hge
      (fun k => by simp [initState, keyCount])
    have hiff := h2 k
    have hinit : k ∈ initState.discovered ↔ False := by simp [initState]
    rw [hinit, false_or] at hiff
    rw [h1 k]
    simp only [hiff]
  · intro s type name hmem
    unfold addService
    by_cases hmeta : type = metaType
    · rw [if_pos hmeta]
      dsimp only
      by_cases hb : normalizeServiceType name ∈ s.browsedTypes
      · rw [if_pos hb]
      · rw [if_neg hb]
    · rw [if_neg hmeta, if_pos hmem]

def c1Events : List Event :=
  [{ kind := EventKind.add, type := "_x._tcp.local.", name := "a" },
   { kind := EventKind.add, type := "_x._tcp.local.", name := "a" },
   { kind := EventKind.update, type := "_x._tcp.local.", name := "a" }]

def c1SeenState : DState :=
  { initState with discovered := [("_x._tcp.local.", "a")] }

theorem dedup_exactly_one_entry_witness :
    (keyCount ("_x._tcp.local.", "a")
      (processEvents envAbsent initState c1Events).devices = 1) ∧
    ((addService envAbsent c1SeenState "_x._tcp.local." "a").devices
      = c1SeenState.devices) :=
  ⟨by
    have h := (dedup_exactly_one_entry envAbsent c1Events
      ("_x._tcp.local.", "a") (by decide)).1
    rw [h]
    decide,
   (dedup_exactly_one_entry envAbsent c1Events ("_x._tcp.local.", "a")
      (by decide)).2 c1SeenState "_x._tcp.local." "a" (by decide)⟩

/-! ## Claim theorems: meta-type browsing -/

lemma addService_nonmeta_browsers (env : String → String → ResolveOutcome)
    (s : DState) (type name : String) (hmeta : type ≠ metaType) :
    (addService env s type name).browsersStarted = s.browsersStarted ∧
    (addService env s type name).browsedTypes = s.browsedTypes := by
  unfold addService
  rw [if_neg hmeta]
  by_cases hmem : (type, name) ∈ s.discovered
  · rw [if_pos hmem]; exact ⟨rfl, rfl⟩
  · rw [if_neg hmem]
    cases env type name with
    | error => exact ⟨rfl, rfl⟩
    | absent => exact ⟨rfl, rfl⟩
    | found info =>
      dsimp only
      by_cases hip : (resolvedDevice type name info).ip ≠ ""
      · rw [if_pos hip]; exact ⟨rfl, rfl⟩
      · rw [if_neg hip]; exact ⟨rfl, rfl⟩

lemma step_browsers_inv (env : String → String → ResolveOutcome) (s : DState)
    (e : Event) (h1 : s.browsersStarted.Nodup)
    (h2 : ∀ t ∈ s.browsersStarted, t ∈ s.browsedTypes) :
    (step env s e).browsersStarted.Nodup ∧
    (∀ t ∈ (step env s e).browsersStarted, t ∈ (step env s e).browsedTypes) := by
  obtain ⟨kind, type, name⟩ := e
  have haddcase :
      (addService env s type name).browsersStarted.Nodup ∧
      (∀ t ∈ (addService env s type name).browsersStarted,
        t ∈ (addService env s type name).browsedTypes) := by
    by_cases hmeta : type = metaType
    · unfold addService
      rw [if_pos hmeta]
      dsimp only
      by_cases hb : normalizeServiceType name ∈ s.browsedTypes
      · rw [if_pos hb]; exact ⟨h1, h2⟩
      · rw [if_neg hb]
        constructor
        · have hnotin : normalizeServiceType name ∉ s.browsersStarted :=
            fun hin => hb (h2 (normalizeServiceType name) hin)
          simp [List.nodup_append, h1, hnotin]
        · intro t ht
          rcases List.mem_append.mp ht with hin | hin
          · exact List.mem_append.mpr (Or.inl (h2 t hin))
          · exact List.mem_append.mpr (Or.inr hin)
    · obtain ⟨hb1, hb2⟩ := addService_nonmeta_browsers env s type name hmeta
      rw [hb1, hb2]
      exact ⟨h1, h2⟩
  cases kind with
  | add => exact haddcase
  | update => exact haddcase
  | remove => exact ⟨h1, h2⟩

lemma processEvents_browsers_inv (env : String → String → ResolveOutcome)
    (events : List Event) :
    ∀ s : DState, s.browsersStarted.Nodup →
      (∀ t ∈ s.browsersStarted, t ∈ s.browsedTypes) →
      (processEvents env s events).browsersStarted.Nodup := by
  induction events with
  | nil => exact fun s h1 _ => h1
  | cons e rest ih =>
    intro s h1 h2
    obtain ⟨h1', h2'⟩ := step_browsers_inv env s e h1 h2
    exact ih (step env s e) h1' h2'

/-- C10: an add event for the meta-enumeration type leaves the Device
Store, the dedup-key set and the resolve log untouched; its only effect
is to record the advertised type, normalized to end in `.local.`, in the
browsed-type set, starting a browser for it only when it was not already
browsed; repeating the enumeration — in either `.local` or `.local.`
spelling — changes nothing, and over any event sequence from startup a
browser is started at most once per normalized type. -/
theorem meta_type_frame (env : String → String → ResolveOutcome) (s : DState)
    (name : String) (events : List Event) :
    ((addService env s metaType name).devices = s.devices) ∧
    ((addService env s metaType name).discovered = s.discovered) ∧
    ((addService env s metaType name).resolveLog = s.resolveLog) ∧
    (normalizeServiceType name ∈ (addService env s metaType name).browsedTypes) ∧
    (normalizeServiceType name ∈ s.browsedTypes → addService env s metaType name = s) ∧
    (∀ n2, normalizeServiceType n2 = normalizeServiceType name →
      addService env (addService env s metaType name) metaType n2
        = addService env s metaType name) ∧
    (normalizeServiceType "x.local" = normalizeServiceType "x.local.") ∧
    ((processEvents env initState events).browsersStarted.Nodup) := by
  have hmain : ∀ (s2 : DState) (nm : String),
      ((addService env s2 metaType nm).devices = s2.devices) ∧
      ((addService env s2 metaType nm).discovered = s2.discovered) ∧
      ((addService env s2 metaType nm).resolveLog = s2.resolveLog) ∧
      (normalizeServiceType nm ∈ (addService env s2 metaType nm).browsedTypes) ∧
      (normalizeServiceType nm ∈ s2.browsedTypes → addService env s2 metaType nm = s2) := by
    intro s2 nm
    unfold addService
    rw [if_pos rfl]
    dsimp only
    by_cases hb : normalizeServiceType nm ∈ s2.browsedTypes
    · rw [if_pos hb]
      exact ⟨rfl, rfl, rfl, hb, fun _ => rfl⟩
    · rw [if_neg hb]
      refine ⟨rfl, rfl, rfl, List.mem_append.mpr (Or.inr (List.mem_singleton.mpr rfl)),
        fun hin => absurd hin hb⟩
  obtain ⟨ha, hb, hc, hd, he⟩ := hmain s name
  refine ⟨ha, hb, hc, hd, he, ?_, by decide, ?_⟩
  · intro n2 hn2
    have := (hmain (addService env s metaType name) n2).2.2.2.2
    exact this (hn2 ▸ hd)
  · exact processEvents_browsers_inv env events initState (by simp [initState])
      (by simp [initState])

def c10State : DState :=
  { initState with browsedTypes := ["_newtype._tcp.local."] }

theorem meta_type_frame_witness :
    (addService envAbsent c10State metaType "_newtype._tcp.local" = c10State) ∧
    (addService envAbsent (addService envAbsent initState metaType "_newtype._tcp.local")
        metaType "_newtype._tcp.local."
      = addService envAbsent initState metaType "_newtype._tcp.local") :=
  ⟨(meta_type_frame envAbsent c10State "_newtype._tcp.local" []).2.2.2.2.1 (by decide),
   (meta_type_frame envAbsent initState "_newtype._tcp.local" []).2.2.2.2.2.1
     "_newtype._tcp.local." (by decide)⟩
